import Mathlib

/-!
Verification of the backend process supervisor of the SeekJob desktop
application (`desktop/src-tauri/src/main.rs`).

The Rust source is shallowly embedded: filesystem contents are modelled by
an explicit tree of entries (for the recursive search under the resource
directory) together with an existence predicate on path strings (for the
`Path::exists` probes); environment lookups are a partial map from variable
names to values; fallible host callbacks (resource directory, app data
directory, port reservation, directory creation, log-file opening, process
spawning) are oracles returning `Except`; the HTTP health probe is an
oracle from the request URL and the attempt index to an optional observed
status code (`none` models a transport error). Paths are plain strings and
`PathBuf::join` is string concatenation with a separator.
-/

namespace SeekJob

/-- `BACKEND_BIN_NAME` from the source: the expected backend executable name. -/
def BACKEND_BIN_NAME : String := "seekjob-backend"

/-- Path join, modelling `PathBuf::join` on string paths. -/
def pjoin (a b : String) : String := a ++ "/" ++ b

/-- Drop whitespace from both ends of a character list. -/
def trimChars (l : List Char) : List Char :=
  ((l.dropWhile Char.isWhitespace).reverse.dropWhile Char.isWhitespace).reverse

/-- Rust's `str::trim`: remove leading and trailing whitespace. -/
def strTrim (s : String) : String := String.mk (trimChars s.data)

/-- A filesystem entry as observed by `fs::read_dir`: a plain file or a
directory with its own list of entries. -/
inductive FSEntry where
  | file (name : String) : FSEntry
  | dir (name : String) (entries : List FSEntry) : FSEntry

/-- The test `path.is_file() && path.file_name() == BACKEND_BIN_NAME` from the
first loop of `walk`. -/
def isBackendFile : FSEntry → Bool
  | .file n => n == BACKEND_BIN_NAME
  | .dir _ _ => false

/-- The first loop of `walk` in `find_backend_recursive`: scan every entry of
the current directory and return the name of the first plain file called
`BACKEND_BIN_NAME`, skipping directories. -/
def findFile : List FSEntry → Option String
  | [] => none
  | .file n :: rest => if n == BACKEND_BIN_NAME then some n else findFile rest
  | .dir _ _ :: rest => findFile rest

/-- The second loop of `walk`: try each subdirectory in order with the given
recursive continuation `w`, returning the first successful result with the
subdirectory name prepended to the returned path components. -/
def tryDirs (w : List FSEntry → Option (List String)) : List FSEntry → Option (List String)
  | [] => none
  | .file _ :: rest => tryDirs w rest
  | .dir d sub :: rest =>
    match w sub with
    | some p => some (d :: p)
    | none => tryDirs w rest

/-- The inner `walk(dir, depth, max_depth)` of `find_backend_recursive`.  The
source carries the pair `(depth, max_depth)` and descends only while
`depth < max_depth`; here the pair is represented by the remaining depth
budget `fuel = max_depth - depth`, and the source's guard `depth >= max_depth`
is `fuel = 0`.  Files of the current directory are checked first; only then
are subdirectories entered, each one fully explored before its later
siblings.  The result is the list of path components below the starting
directory ending in the found file name. -/
def walkFuel : Nat → List FSEntry → Option (List String)
  | 0, entries =>
    (match findFile entries with
     | some n => some [n]
     | none => none)
  | fuel + 1, entries =>
    (match findFile entries with
     | some n => some [n]
     | none => tryDirs (walkFuel fuel) entries)

/-- `find_backend_recursive(dir, max_depth)` from the source: walk the entry
tree of `dir` starting with the full depth budget. -/
def find_backend_recursive (entries : List FSEntry) (max_depth : Nat) : Option (List String) :=
  walkFuel max_depth entries

/-- Whether some entry of the current directory is a matching plain file. -/
def anyMatchHere (l : List FSEntry) : Bool := l.any isBackendFile

/-- Whether `p` holds of the entry list of some subdirectory of the current
directory. -/
def anyDir (p : List FSEntry → Bool) : List FSEntry → Bool
  | [] => false
  | .file _ :: rest => anyDir p rest
  | .dir _ sub :: rest => p sub || anyDir p rest

/-- Specification-side predicate for claim C7: a file named
`BACKEND_BIN_NAME` exists in the tree at most `fuel` directory levels below
the starting directory (a file directly in the starting directory is at
level 0). -/
def hasMatchWithin : Nat → List FSEntry → Bool
  | 0, l => anyMatchHere l
  | fuel + 1, l => anyMatchHere l || anyDir (hasMatchWithin fuel) l

/-- A chain of `n` nested directories with the expected backend file at the
bottom: `nestedChain 0` is the file itself, so an element `nestedChain n` of
the root entry list puts the file `n` directory levels deep. -/
def nestedChain : Nat → FSEntry
  | 0 => .file BACKEND_BIN_NAME
  | n + 1 => .dir "level" [nestedChain n]

lemma findFile_isSome (l : List FSEntry) : (findFile l).isSome = anyMatchHere l := by
  induction l with
  | nil => rfl
  | cons e rest ih =>
    cases e with
    | file n =>
      by_cases h : n == BACKEND_BIN_NAME
      · simp [findFile, anyMatchHere, isBackendFile, h]
      · simp [findFile, anyMatchHere, isBackendFile, h] at *
        simp [ih, anyMatchHere]
    | dir d sub => simp [findFile, anyMatchHere, isBackendFile, ih, anyMatchHere]

lemma tryDirs_isSome (w : List FSEntry → Option (List String)) (l : List FSEntry) :
    (tryDirs w l).isSome = anyDir (fun s => (w s).isSome) l := by
  induction l with
  | nil => rfl
  | cons e rest ih =>
    cases e with
    | file n => simpa [tryDirs, anyDir] using ih
    | dir d sub =>
      cases h : w sub with
      | none => simp [tryDirs, anyDir, h, ih]
      | some p => simp [tryDirs, anyDir, h]

lemma walkFuel_isSome (fuel : Nat) : ∀ l, (walkFuel fuel l).isSome = hasMatchWithin fuel l := by
  induction fuel with
  | zero =>
    intro l
    cases h : findFile l with
    | none => simp [walkFuel, hasMatchWithin, h, ← findFile_isSome]
    | some n => simp [walkFuel, hasMatchWithin, h, ← findFile_isSome]
  | succ f ih =>
    intro l
    have hfun : (fun s => (walkFuel f s).isSome) = hasMatchWithin f := funext ih
    cases h : findFile l with
    | none =>
      have hm : anyMatchHere l = false := by
        rw [← findFile_isSome, h]; rfl
      simp [walkFuel, hasMatchWithin, h, hm, tryDirs_isSome, hfun]
    | some n =>
      have hm : anyMatchHere l = true := by
        rw [← findFile_isSome, h]; rfl
      simp [walkFuel, hasMatchWithin, h, hm]

lemma findFile_of_mem {l : List FSEntry} (h : FSEntry.file BACKEND_BIN_NAME ∈ l) :
    findFile l = some BACKEND_BIN_NAME := by
  induction l with
  | nil => cases h
  | cons e rest ih =>
    cases e with
    | file n =>
      by_cases hn : n == BACKEND_BIN_NAME
      · simp [findFile, hn]
        exact beq_iff_eq.mp hn
      · rcases List.mem_cons.mp h with heq | hmem
        · cases heq
          simp at hn
        · simp [findFile, hn]
          exact ih hmem
    | dir d sub =>
      rcases List.mem_cons.mp h with heq | hmem
      · cases heq
      · simp [findFile]
        exact ih hmem

lemma walkFuel_of_file_mem {l : List FSEntry} (fuel : Nat)
    (h : FSEntry.file BACKEND_BIN_NAME ∈ l) :
    walkFuel fuel l = some [BACKEND_BIN_NAME] := by
  cases fuel <;> simp [walkFuel, findFile_of_mem h]

/-- `BackendCommand` from the source: the resolved program and its arguments. -/
structure BackendCommand where
  program : String
  args : List String
deriving DecidableEq

/-- The ambient context read by `resolve_backend_command`: the process
environment, the build flavour (`cfg!(debug_assertions)`), the
`Path::exists` probe, the Tauri resource-directory callback, and the entry
tree of the resource directory (what `fs::read_dir` would observe under it,
used by the recursive search). -/
structure ResolveCtx where
  env : String → Option String
  debugAssertions : Bool
  fsExists : String → Bool
  resourceDir : Except String String
  resourceTree : List FSEntry

/-- Strategy 1 of `resolve_backend_command` (the first `if let` block): the
`SEEKJOB_BACKEND_BIN` override is used when the variable is set and the path
exists. -/
def envOverrideHit (c : ResolveCtx) : Option String :=
  match c.env "SEEKJOB_BACKEND_BIN" with
  | some path => if c.fsExists path then some path else none
  | none => none

/-- Strategy 2 of `resolve_backend_command` (the `cfg!(debug_assertions)`
block): in development builds, the `SEEKJOB_BACKEND_DEV_PYTHON` and
`SEEKJOB_BACKEND_DEV_SCRIPT` pair is used when both variables are set and
both paths exist. -/
def devOverrideHit (c : ResolveCtx) : Option (String × String) :=
  if c.debugAssertions then
    match c.env "SEEKJOB_BACKEND_DEV_PYTHON", c.env "SEEKJOB_BACKEND_DEV_SCRIPT" with
    | some py, some script =>
      if c.fsExists py && c.fsExists script then some (py, script) else none
    | some _, none => none
    | none, _ => none
  else none

/-- The `candidates` vector of `resolve_backend_command`, in source order. -/
def bundledCandidates (resource_dir : String) : List String :=
  [ pjoin resource_dir BACKEND_BIN_NAME,
    pjoin resource_dir ("backend/dist/" ++ BACKEND_BIN_NAME),
    pjoin resource_dir ("backend/" ++ BACKEND_BIN_NAME),
    pjoin resource_dir ("_up_/backend/dist/" ++ BACKEND_BIN_NAME),
    pjoin resource_dir ("_up_/_up_/backend/dist/" ++ BACKEND_BIN_NAME) ]

/-- Re-attach the path components returned by the recursive walk below the
resource directory. -/
def joinComponents (base : String) (comps : List String) : String :=
  comps.foldl pjoin base

/-- `resolve_backend_command` from the source: the explicit binary override,
then (development builds only) the interpreter+script override pair, then the
fixed bundled candidates in order, then the bounded recursive search, and
otherwise the not-found error naming the resource directory and the expected
file name.  The candidate loop is `List.find?` over the source's vector. -/
def resolve_backend_command (c : ResolveCtx) : Except String BackendCommand :=
  match envOverrideHit c with
  | some path => .ok { program := path, args := [] }
  | none =>
    match devOverrideHit c with
    | some (py, script) => .ok { program := py, args := [script] }
    | none =>
      match c.resourceDir with
      | .error e => .error ("Cannot resolve Tauri resources dir: " ++ e)
      | .ok resource_dir =>
        match (bundledCandidates resource_dir).find? c.fsExists with
        | some candidate => .ok { program := candidate, args := [] }
        | none =>
          match find_backend_recursive c.resourceTree 6 with
          | some comps => .ok { program := joinComponents resource_dir comps, args := [] }
          | none =>
            .error ("Embedded backend binary not found under " ++ resource_dir ++
              ". Expected file name: " ++ BACKEND_BIN_NAME)

/-- The body of the `if let Ok(resp) = ureq::get(&url).call()` block of
`wait_for_health`: a single probe attempt succeeds exactly when a response
was observed (`some`) and its status is `200`.  `none` models a transport
error (`Err` from the HTTP client). -/
def probeOk (r : Option Nat) : Bool :=
  match r with
  | some status => status == 200
  | none => false

/-- The `while elapsed < max_wait` loop of `wait_for_health`: probe, then
sleep 300ms and add 300ms to `elapsed`.  `probe` is the network oracle,
taking the request URL and the attempt index; durations are milliseconds. -/
def waitLoop (probe : String → Nat → Option Nat) (url : String)
    (max_wait elapsed i : Nat) : Bool :=
  if h : elapsed < max_wait then
    if probeOk (probe url i) then true
    else waitLoop probe url max_wait (elapsed + 300) (i + 1)
  else false
termination_by max_wait - elapsed
decreasing_by omega

/-- `wait_for_health(api_base, max_wait)` from the source: poll
`{api_base}/health` every 300ms starting from `elapsed = 0`. -/
def wait_for_health (probe : String → Nat → Option Nat) (api_base : String)
    (max_wait : Nat) : Bool :=
  waitLoop probe (api_base ++ "/health") max_wait 0 0

lemma probeOk_iff (r : Option Nat) : probeOk r = true ↔ r = some 200 := by
  cases r with
  | none => simp [probeOk]
  | some s => simp [probeOk]

lemma waitLoop_true_iff (probe : String → Nat → Option Nat) (url : String) (max_wait : Nat) :
    ∀ n elapsed i, max_wait - elapsed ≤ n →
      (waitLoop probe url max_wait elapsed i = true ↔
        ∃ j, elapsed + 300 * j < max_wait ∧ probe url (i + j) = some 200) := by
  intro n
  induction n with
  | zero =>
    intro elapsed i hn
    have hge : ¬ elapsed < max_wait := by omega
    rw [waitLoop]
    simp [hge]
    intro j hj
    omega
  | succ n ih =>
    intro elapsed i hn
    by_cases hlt : elapsed < max_wait
    · rw [waitLoop]
      simp [hlt]
      by_cases hp : probeOk (probe url i)
      · simp [hp]
        exact ⟨0, by omega, by simpa using (probeOk_iff _).mp hp⟩
      · simp [hp]
        rw [ih (elapsed + 300) (i + 1) (by omega)]
        constructor
        · rintro ⟨j, hj, hpj⟩
          exact ⟨j + 1, by omega, by simpa [Nat.add_assoc, Nat.add_comm 1 j] using hpj⟩
        · rintro ⟨j, hj, hpj⟩
          cases j with
          | zero =>
            exfalso
            apply hp
            rw [probeOk_iff]
            simpa using hpj
          | succ j =>
            refine ⟨j, by omega, ?_⟩
            simpa [Nat.add_assoc, Nat.add_comm 1 j] using hpj
    · rw [waitLoop]
      simp [hlt]
      intro j hj
      omega

lemma wait_for_health_true_iff_aux (probe : String → Nat → Option Nat)
    (api_base : String) (max_wait : Nat) :
    wait_for_health probe api_base max_wait = true ↔
      ∃ i, 300 * i < max_wait ∧ probe (api_base ++ "/health") i = some 200 := by
  rw [wait_for_health,
    waitLoop_true_iff probe (api_base ++ "/health") max_wait (max_wait - 0) 0 0 (by omega)]
  simp

lemma wait_for_health_never (api_base : String) (max_wait : Nat) :
    wait_for_health (fun _ _ => none) api_base max_wait = false := by
  rw [← Bool.not_eq_true, wait_for_health_true_iff_aux]
  rintro ⟨i, -, h⟩
  cases h

/-- `resolve_seekjob_data_dir`, strategy 1 (the first `if let` block): the
`SEEKJOB_DATA_DIR_OVERRIDE` variable is used, trimmed, when it is set and its
trimmed value is non-empty. -/
def dataDirOverrideHit (env : String → Option String) : Option String :=
  match env "SEEKJOB_DATA_DIR_OVERRIDE" with
  | some raw => if (strTrim raw).isEmpty then none else some (strTrim raw)
  | none => none

/-- `resolve_seekjob_data_dir`, strategy 2 (the `HOME` block): when `HOME` is
set with a non-empty trimmed value, the data directory is
`$HOME/Library/Application Support/SeekJob`. -/
def homeHit (env : String → Option String) : Option String :=
  match env "HOME" with
  | some home =>
    if (strTrim home).isEmpty then none
    else some (pjoin (pjoin (pjoin (strTrim home) "Library") "Application Support") "SeekJob")
  | none => none

/-- `resolve_seekjob_data_dir` from the source: the override variable, then
the `HOME`-derived macOS location, then the host's app-data-directory
callback (whose failure is wrapped in the source's error message). -/
def resolve_seekjob_data_dir (env : String → Option String)
    (app_data_dir : Except String String) : Except String String :=
  match dataDirOverrideHit env with
  | some p => .ok p
  | none =>
    match homeHit env with
    | some p => .ok p
    | none =>
      match app_data_dir with
      | .ok p => .ok p
      | .error e => .error ("Cannot resolve app data dir: " ++ e)

/-- `resolve_legacy_db_path`, the `if let` block: the `SEEKJOB_LEGACY_DB_PATH`
hint is honoured when it is set, its trimmed value is non-empty, and that
path exists. -/
def legacyHintHit (env : String → Option String) (fsExists : String → Bool) : Option String :=
  match env "SEEKJOB_LEGACY_DB_PATH" with
  | some raw =>
    if !(strTrim raw).isEmpty && fsExists (strTrim raw) then some (strTrim raw) else none
  | none => none

/-- The hard-coded `candidates` array of `resolve_legacy_db_path`, in source
order. -/
def legacyCandidates : List String :=
  [ "/Volumes/PubliLab-EXHD/Publilab/Projects/PubliLab/GitHub/Linkedin/backend/app.db",
    "/Volumes/PubliLab-EXHD/Publilab/Projects/PubliLab/GitHub/linkedin/backend/app.db" ]

/-- `resolve_legacy_db_path` from the source: the environment hint when it
names an existing path, else the first existing hard-coded candidate, else
the empty string.  The candidate loop is `List.find?` over the source's
array. -/
def resolve_legacy_db_path (env : String → Option String) (fsExists : String → Bool) : String :=
  match legacyHintHit env fsExists with
  | some p => p
  | none =>
    match legacyCandidates.find? fsExists with
    | some candidate => candidate
    | none => ""

/-- `AppState` from the source.  The `Arc<Mutex<Option<Child>>>` child slot is
modelled as an optional process identifier; the lock itself is a concurrency
artefact with no further observable behaviour here. -/
structure AppState where
  api_base : String
  data_dir : String
  logs_dir : String
  child : Option Nat
deriving DecidableEq

/-- The externally observable process actions of the supervisor: spawning the
child (with its program, arguments, the extra environment entries passed via
`Command::env`, and the two log-sink paths), killing a child by identifier,
and writing an error line to the host log (`eprintln!`). -/
inductive Effect where
  | spawn (program : String) (args : List String) (extraEnv : List (String × String))
      (stdout_log stderr_log : String) : Effect
  | kill (pid : Nat) : Effect
  | logError (msg : String) : Effect
deriving DecidableEq

/-- The oracles `start_backend` consults, extending `ResolveCtx` with the
app-data-directory callback, `fs::create_dir_all`, `reserve_port` (already
formatted errors, as the source helper returns them), log-file opening, the
spawn outcome (a process identifier on success), and the health-probe
network oracle. -/
structure StartCtx where
  env : String → Option String
  debugAssertions : Bool
  fsExists : String → Bool
  resourceDir : Except String String
  resourceTree : List FSEntry
  appDataDir : Except String String
  createDirAll : String → Except String Unit
  reservePort : Except String Nat
  openLogFile : String → Except String Unit
  spawnChild : Except String Nat
  probe : String → Nat → Option Nat

/-- The `ResolveCtx` part of a `StartCtx`. -/
def StartCtx.resolveCtx (c : StartCtx) : ResolveCtx :=
  { env := c.env, debugAssertions := c.debugAssertions, fsExists := c.fsExists,
    resourceDir := c.resourceDir, resourceTree := c.resourceTree }

/-- The five `.env(...)` calls of `start_backend`, in source order. -/
def childEnvList (port : Nat) (data_dir db_url legacy_path : String) :
    List (String × String) :=
  [ ("SEEKJOB_PORT", toString port),
    ("PORT", toString port),
    ("SEEKJOB_DATA_DIR", data_dir),
    ("DATABASE_URL", db_url),
    ("SEEKJOB_LEGACY_DB_PATH", legacy_path) ]

/-- The environment the child observes: `Command::env` entries are merged
onto the inherited parent process environment, overriding on their own keys
and leaving every other variable as the parent has it (the semantics of
`std::process::Command::env`). -/
def mergedEnv (parent : String → Option String) (extra : List (String × String)) :
    String → Option String :=
  fun k =>
    match extra.find? (fun kv => kv.1 == k) with
    | some kv => some kv.2
    | none => parent k

/-- `start_backend` from the source, step by step: resolve and create the
data and logs directories, reserve a port, derive the API base and the
SQLite URL, resolve the backend command, open the two log sinks, resolve the
legacy database path, spawn the child with the extra environment, then block
on the health probe with the fixed 70-second (70000ms) ceiling, killing the
child and failing on timeout.  Alongside the `Result`, the list of process
effects is returned. -/
def start_backend (c : StartCtx) : Except String AppState × List Effect :=
  match resolve_seekjob_data_dir c.env c.appDataDir with
  | .error e => (.error e, [])
  | .ok data_dir =>
    match c.createDirAll data_dir with
    | .error e => (.error ("Cannot create app data dir: " ++ e), [])
    | .ok _ =>
      let logs_dir := pjoin data_dir "logs"
      match c.createDirAll logs_dir with
      | .error e => (.error ("Cannot create logs dir: " ++ e), [])
      | .ok _ =>
        match c.reservePort with
        | .error e => (.error e, [])
        | .ok port =>
          let api_base := "http://127.0.0.1:" ++ toString port ++ "/api"
          let db_path := pjoin data_dir "app.db"
          let db_url := "sqlite:///" ++ db_path
          match resolve_backend_command c.resolveCtx with
          | .error e => (.error e, [])
          | .ok backend =>
            let stdout_log := pjoin logs_dir "backend.stdout.log"
            let stderr_log := pjoin logs_dir "backend.stderr.log"
            match c.openLogFile stdout_log with
            | .error e => (.error ("Cannot open backend stdout log: " ++ e), [])
            | .ok _ =>
              match c.openLogFile stderr_log with
              | .error e => (.error ("Cannot open backend stderr log: " ++ e), [])
              | .ok _ =>
                let legacy_path := resolve_legacy_db_path c.env c.fsExists
                match c.spawnChild with
                | .error e =>
                  (.error ("Cannot spawn backend process (" ++ backend.program ++ "): " ++ e), [])
                | .ok pid =>
                  let spawnEff := Effect.spawn backend.program backend.args
                    (childEnvList port data_dir db_url legacy_path) stdout_log stderr_log
                  if wait_for_health c.probe api_base 70000 then
                    (.ok { api_base := api_base, data_dir := data_dir,
                           logs_dir := logs_dir, child := some pid }, [spawnEff])
                  else
                    (.error "Backend process started but /api/health did not become ready in time",
                      [spawnEff, .kill pid])

/-- `stop_backend` from the source, acting on the child slot of the state:
kill the child if one is present (discarding the kill outcome `killChild pid`,
as the source's `let _ = child.kill();` does), then clear the slot.  Returns
the new slot value and the emitted effects. -/
def stop_backend (killChild : Nat → Except String Unit) (child : Option Nat) :
    Option Nat × List Effect :=
  match child with
  | some pid =>
    let _ := killChild pid
    (none, [Effect.kill pid])
  | none => (none, [])

/-- The `setup` closure of `main`: on `start_backend` success the returned
state is installed; on failure the error is logged and a degraded state is
installed, with the placeholder unreachable API base, the resolved data
directory (or `"."` when even that resolution fails), and no child handle.
The fallback's ignored `fs::create_dir_all` call has no observable outcome
and is not recorded. -/
def setup_state (c : StartCtx) : AppState × List Effect :=
  match start_backend c with
  | (.ok st, effs) => (st, effs)
  | (.error e, effs) =>
    let data_dir :=
      match resolve_seekjob_data_dir c.env c.appDataDir with
      | .ok d => d
      | .error _ => "."
    let logs_dir := pjoin data_dir "logs"
    ({ api_base := "http://127.0.0.1:0/api", data_dir := data_dir,
       logs_dir := logs_dir, child := none },
      effs ++ [Effect.logError e])

/-- C7: `find_backend_recursive` enforces a maximum recursion depth of 6
below the resource directory — with the fixed budget 6 the walk succeeds
exactly when a file named `BACKEND_BIN_NAME` sits at most 6 directory levels
deep; in particular a chain nesting the file 6 levels deep is found and a
chain nesting it 7 levels deep is not. -/
theorem find_backend_recursive_depth_bound :
    (∀ entries, (find_backend_recursive entries 6).isSome = hasMatchWithin 6 entries)
    ∧ (find_backend_recursive [nestedChain 6] 6).isSome = true
    ∧ find_backend_recursive [nestedChain 7] 6 = none :=
  ⟨fun entries => walkFuel_isSome 6 entries, by decide, by decide⟩

/-- C8 counterexample: the walk is depth-first across sibling directories,
not breadth-first per level.  In the tree `[a/[b/[seekjob-backend]],
c/[seekjob-backend]]` the shallowest match is at depth 1 (under `c`, there is
no match at depth 0), yet the walk returns the depth-2 match `a/b/seekjob-backend`
found via the earlier sibling `a` — its path has 3 components instead of the
2 a depth-1 result would have. -/
theorem walk_depth_first_counterexample :
    hasMatchWithin 0
      [FSEntry.dir "a" [FSEntry.dir "b" [FSEntry.file "seekjob-backend"]],
       FSEntry.dir "c" [FSEntry.file "seekjob-backend"]] = false
    ∧ hasMatchWithin 1
      [FSEntry.dir "a" [FSEntry.dir "b" [FSEntry.file "seekjob-backend"]],
       FSEntry.dir "c" [FSEntry.file "seekjob-backend"]] = true
    ∧ find_backend_recursive
      [FSEntry.dir "a" [FSEntry.dir "b" [FSEntry.file "seekjob-backend"]],
       FSEntry.dir "c" [FSEntry.file "seekjob-backend"]] 6
      = some ["a", "b", "seekjob-backend"]
    ∧ (["a", "b", "seekjob-backend"] : List String).length ≠ 2 :=
  ⟨by decide, by decide, by decide, by decide⟩

/-- C8 (amended): within each visited directory, files are checked before
any descent — whenever the directory being walked directly contains a file
named `BACKEND_BIN_NAME`, the walk returns that file as a single-component
path and does not descend, for every depth budget.  (Across sibling
subdirectories the traversal is depth-first, not breadth-first.) -/
theorem walk_files_before_descent (max_depth : Nat) (entries : List FSEntry)
    (h : FSEntry.file BACKEND_BIN_NAME ∈ entries) :
    find_backend_recursive entries max_depth = some [BACKEND_BIN_NAME] :=
  walkFuel_of_file_mem max_depth h

/-- Witness for C8 (amended): a root containing both a subdirectory and a
matching file yields the root-level file. -/
theorem walk_files_before_descent_check :
    find_backend_recursive
      [FSEntry.dir "z" [FSEntry.file BACKEND_BIN_NAME], FSEntry.file BACKEND_BIN_NAME] 6
      = some [BACKEND_BIN_NAME] :=
  walk_files_before_descent 6
    [FSEntry.dir "z" [FSEntry.file BACKEND_BIN_NAME], FSEntry.file BACKEND_BIN_NAME]
    (List.Mem.tail _ (List.Mem.head _))

/-- C2: `wait_for_health(api_base, max_wait)` probes `{api_base}/health` on a
300ms grid and returns `true` exactly when some probe, issued while the
cumulative elapsed time is still below `max_wait`, observes status 200;
transport errors (`none`) and non-200 statuses never satisfy the condition
and never abort the loop, and with no successful probe the function returns
`false` (it is total and never raises). -/
theorem wait_for_health_true_iff (probe : String → Nat → Option Nat)
    (api_base : String) (max_wait : Nat) :
    wait_for_health probe api_base max_wait = true ↔
      ∃ i, 300 * i < max_wait ∧ probe (api_base ++ "/health") i = some 200 :=
  wait_for_health_true_iff_aux probe api_base max_wait

/-- C4: `stop_backend` kills the child if present, always clears the stored
handle, emits nothing when no child is stored, ignores the kill outcome
entirely (kill failures are swallowed), and a second call on the resulting
state is a no-op. -/
theorem stop_backend_idempotent (killChild killChild2 : Nat → Except String Unit)
    (child : Option Nat) :
    (stop_backend killChild child).1 = none
    ∧ stop_backend killChild2 (stop_backend killChild child).1 = (none, [])
    ∧ (∀ pid, child = some pid → (stop_backend killChild child).2 = [Effect.kill pid])
    ∧ (child = none → (stop_backend killChild child).2 = [])
    ∧ stop_backend killChild child = stop_backend killChild2 child := by
  cases child <;> simp [stop_backend]

/-- Witness for C4 at a stored child `5` whose kill reports "already
exited". -/
theorem stop_backend_idempotent_check :
    (stop_backend (fun _ => Except.error "already exited") (some 5)).1 = none
    ∧ stop_backend (fun _ => Except.ok ())
        ((stop_backend (fun _ => Except.error "already exited") (some 5)).1) = (none, [])
    ∧ (stop_backend (fun _ => Except.error "already exited") (some 5)).2 = [Effect.kill 5] := by
  obtain ⟨h1, h2, h3, h4, h5⟩ :=
    stop_backend_idempotent (fun _ => Except.error "already exited")
      (fun _ => Except.ok ()) (some 5)
  exact ⟨h1, h2, h3 5 rfl⟩

/-- C9: `resolve_seekjob_data_dir` precedence — a set, trimmed-non-empty
`SEEKJOB_DATA_DIR_OVERRIDE` wins; otherwise a set, trimmed-non-empty `HOME`
yields `$HOME/Library/Application Support/SeekJob`; and the host's
app-data-directory callback is consulted only when both are absent or
empty (its error being wrapped in the source's message). -/
theorem resolve_seekjob_data_dir_precedence (env : String → Option String)
    (app_data_dir : Except String String) :
    (∀ raw, env "SEEKJOB_DATA_DIR_OVERRIDE" = some raw → (strTrim raw).isEmpty = false →
        resolve_seekjob_data_dir env app_data_dir = .ok (strTrim raw))
    ∧ (∀ home, dataDirOverrideHit env = none → env "HOME" = some home →
        (strTrim home).isEmpty = false →
        resolve_seekjob_data_dir env app_data_dir =
          .ok (pjoin (pjoin (pjoin (strTrim home) "Library") "Application Support") "SeekJob"))
    ∧ (∀ p, dataDirOverrideHit env = none → homeHit env = none → app_data_dir = .ok p →
        resolve_seekjob_data_dir env app_data_dir = .ok p)
    ∧ (∀ e, dataDirOverrideHit env = none → homeHit env = none → app_data_dir = .error e →
        resolve_seekjob_data_dir env app_data_dir =
          .error ("Cannot resolve app data dir: " ++ e)) := by
  refine ⟨?_, ?_, ?_, ?_⟩
  · intro raw hraw hne
    simp [resolve_seekjob_data_dir, dataDirOverrideHit, hraw, hne]
  · intro home hov hhome hne
    simp [resolve_seekjob_data_dir, hov, homeHit, hhome, hne]
  · intro p hov hhome happ
    simp [resolve_seekjob_data_dir, hov, hhome, happ]
  · intro e hov hhome happ
    simp [resolve_seekjob_data_dir, hov, hhome, happ]

/-- Witness for C9: one environment per strategy. -/
theorem resolve_seekjob_data_dir_precedence_check :
    resolve_seekjob_data_dir
      (fun v => if v = "SEEKJOB_DATA_DIR_OVERRIDE" then some "  /custom " else none)
      (Except.ok "/appdata") = .ok (strTrim "  /custom ")
    ∧ resolve_seekjob_data_dir
      (fun v => if v = "HOME" then some "/home/u" else none)
      (Except.ok "/appdata") =
        .ok (pjoin (pjoin (pjoin (strTrim "/home/u") "Library") "Application Support") "SeekJob")
    ∧ resolve_seekjob_data_dir (fun _ => none) (Except.ok "/appdata") = .ok "/appdata"
    ∧ resolve_seekjob_data_dir (fun _ => none) (Except.error "boom") =
        .error ("Cannot resolve app data dir: " ++ "boom") := by
  refine ⟨?_, ?_, ?_, ?_⟩
  · exact (resolve_seekjob_data_dir_precedence
      (fun v => if v = "SEEKJOB_DATA_DIR_OVERRIDE" then some "  /custom " else none)
      (Except.ok "/appdata")).1 "  /custom " (by decide) (by decide)
  · exact (resolve_seekjob_data_dir_precedence
      (fun v => if v = "HOME" then some "/home/u" else none)
      (Except.ok "/appdata")).2.1 "/home/u" (by decide) (by decide) (by decide)
  · exact (resolve_seekjob_data_dir_precedence (fun _ => none)
      (Except.ok "/appdata")).2.2.1 "/appdata" (by decide) (by decide) rfl
  · exact (resolve_seekjob_data_dir_precedence (fun _ => none)
      (Except.error "boom")).2.2.2 "boom" (by decide) (by decide) rfl

/-- C10: `resolve_legacy_db_path` honours the `SEEKJOB_LEGACY_DB_PATH` hint
only when its trimmed value is non-empty and the path exists; a set but
non-existing hint is silently ignored and the two hard-coded `/Volumes/...`
candidates are probed in order, the first existing one winning; the empty
string is returned exactly when nothing is found. -/
theorem resolve_legacy_db_path_precedence (env : String → Option String)
    (fsExists : String → Bool) :
    (∀ raw, env "SEEKJOB_LEGACY_DB_PATH" = some raw → (strTrim raw).isEmpty = false →
        fsExists (strTrim raw) = true → resolve_legacy_db_path env fsExists = strTrim raw)
    ∧ (∀ raw, env "SEEKJOB_LEGACY_DB_PATH" = some raw → fsExists (strTrim raw) = false →
        resolve_legacy_db_path env fsExists = (legacyCandidates.find? fsExists).getD "")
    ∧ (∀ candidate, legacyHintHit env fsExists = none →
        legacyCandidates.find? fsExists = some candidate →
        resolve_legacy_db_path env fsExists = candidate)
    ∧ (legacyHintHit env fsExists = none → legacyCandidates.find? fsExists = none →
        resolve_legacy_db_path env fsExists = "") := by
  refine ⟨?_, ?_, ?_, ?_⟩
  · intro raw hraw hne hex
    simp [resolve_legacy_db_path, legacyHintHit, hraw, hne, hex]
  · intro raw hraw hex
    cases hfind : legacyCandidates.find? fsExists <;>
      simp [resolve_legacy_db_path, legacyHintHit, hraw, hex, hfind]
  · intro candidate hhint hfind
    simp [resolve_legacy_db_path, hhint, hfind]
  · intro hhint hfind
    simp [resolve_legacy_db_path, hhint, hfind]

/-- Witness for C10: an honoured hint, a set-but-nonexistent hint falling
back to the second hard-coded candidate, the same fallback with no hint at
all, and the empty result when nothing exists. -/
theorem resolve_legacy_db_path_precedence_check :
    resolve_legacy_db_path
      (fun v => if v = "SEEKJOB_LEGACY_DB_PATH" then some "/legacy/app.db" else none)
      (fun p => p == "/legacy/app.db") = strTrim "/legacy/app.db"
    ∧ resolve_legacy_db_path
      (fun v => if v = "SEEKJOB_LEGACY_DB_PATH" then some "/gone/app.db" else none)
      (fun p => p == "/Volumes/PubliLab-EXHD/Publilab/Projects/PubliLab/GitHub/linkedin/backend/app.db") =
        ((legacyCandidates.find?
          (fun p => p == "/Volumes/PubliLab-EXHD/Publilab/Projects/PubliLab/GitHub/linkedin/backend/app.db")).getD "")
    ∧ resolve_legacy_db_path (fun _ => none)
      (fun p => p == "/Volumes/PubliLab-EXHD/Publilab/Projects/PubliLab/GitHub/linkedin/backend/app.db") =
        "/Volumes/PubliLab-EXHD/Publilab/Projects/PubliLab/GitHub/linkedin/backend/app.db"
    ∧ resolve_legacy_db_path (fun _ => none) (fun _ => false) = "" := by
  refine ⟨?_, ?_, ?_, ?_⟩
  · exact (resolve_legacy_db_path_precedence
      (fun v => if v = "SEEKJOB_LEGACY_DB_PATH" then some "/legacy/app.db" else none)
      (fun p => p == "/legacy/app.db")).1 "/legacy/app.db" (by decide) (by decide) (by decide)
  · exact (resolve_legacy_db_path_precedence
      (fun v => if v = "SEEKJOB_LEGACY_DB_PATH" then some "/gone/app.db" else none)
      (fun p => p == "/Volumes/PubliLab-EXHD/Publilab/Projects/PubliLab/GitHub/linkedin/backend/app.db")).2.1
      "/gone/app.db" (by decide) (by decide)
  · exact (resolve_legacy_db_path_precedence (fun _ => none)
      (fun p => p == "/Volumes/PubliLab-EXHD/Publilab/Projects/PubliLab/GitHub/linkedin/backend/app.db")).2.2.1
      "/Volumes/PubliLab-EXHD/Publilab/Projects/PubliLab/GitHub/linkedin/backend/app.db"
      (by decide) (by decide)
  · exact (resolve_legacy_db_path_precedence (fun _ => none)
      (fun _ => false)).2.2.2 (by decide) (by decide)

/-- C1: `resolve_backend_command` tries its strategies in fixed priority
order with the first match winning: the `SEEKJOB_BACKEND_BIN` override when
it points at an existing path; then, in development builds only, the
interpreter+script pair when both exist (a release build never uses it);
then the bundled candidates in their listed order (the first existing one,
via `List.find?`); then the depth-6 recursive search; and otherwise the
error naming the resource directory and the expected file name — with the
resource-directory callback consulted only after the overrides miss. -/
theorem resolve_backend_command_priority (c : ResolveCtx) :
    (∀ path, c.env "SEEKJOB_BACKEND_BIN" = some path → c.fsExists path = true →
        resolve_backend_command c = .ok { program := path, args := [] })
    ∧ (c.debugAssertions = false → devOverrideHit c = none)
    ∧ (∀ py script, envOverrideHit c = none → c.debugAssertions = true →
        c.env "SEEKJOB_BACKEND_DEV_PYTHON" = some py →
        c.env "SEEKJOB_BACKEND_DEV_SCRIPT" = some script →
        c.fsExists py = true → c.fsExists script = true →
        resolve_backend_command c = .ok { program := py, args := [script] })
    ∧ (∀ e, envOverrideHit c = none → devOverrideHit c = none →
        c.resourceDir = .error e →
        resolve_backend_command c = .error ("Cannot resolve Tauri resources dir: " ++ e))
    ∧ (∀ rd candidate, envOverrideHit c = none → devOverrideHit c = none →
        c.resourceDir = .ok rd →
        (bundledCandidates rd).find? c.fsExists = some candidate →
        resolve_backend_command c = .ok { program := candidate, args := [] })
    ∧ (∀ rd comps, envOverrideHit c = none → devOverrideHit c = none →
        c.resourceDir = .ok rd →
        (bundledCandidates rd).find? c.fsExists = none →
        find_backend_recursive c.resourceTree 6 = some comps →
        resolve_backend_command c = .ok { program := joinComponents rd comps, args := [] })
    ∧ (∀ rd, envOverrideHit c = none → devOverrideHit c = none →
        c.resourceDir = .ok rd →
        (bundledCandidates rd).find? c.fsExists = none →
        find_backend_recursive c.resourceTree 6 = none →
        resolve_backend_command c =
          .error ("Embedded backend binary not found under " ++ rd ++
            ". Expected file name: " ++ BACKEND_BIN_NAME)) := by
  refine ⟨?_, ?_, ?_, ?_, ?_, ?_, ?_⟩
  · intro path henv hex
    simp [resolve_backend_command, envOverrideHit, henv, hex]
  · intro hdbg
    simp [devOverrideHit, hdbg]
  · intro py script hover hdbg hpy hscript hexpy hexscript
    simp [resolve_backend_command, hover, devOverrideHit, hdbg, hpy, hscript, hexpy, hexscript]
  · intro e hover hdev hdir
    simp [resolve_backend_command, hover, hdev, hdir]
  · intro rd candidate hover hdev hdir hfind
    simp [resolve_backend_command, hover, hdev, hdir, hfind]
  · intro rd comps hover hdev hdir hfind hrec
    simp [resolve_backend_command, hover, hdev, hdir, hfind, hrec]
  · intro rd hover hdev hdir hfind hrec
    simp [resolve_backend_command, hover, hdev, hdir, hfind, hrec]

/-- Witness for C1: one context per strategy — the binary override winning
over a bundled candidate that also exists; the dev pair in a debug build; a
release build ignoring the dev pair; a failing resource-directory callback;
the third bundled candidate being the first that exists; the recursive
search; and the final not-found error. -/
theorem resolve_backend_command_priority_check :
    resolve_backend_command
      { env := fun v => if v = "SEEKJOB_BACKEND_BIN" then some "/x/bin" else none,
        debugAssertions := false,
        fsExists := fun p => p == "/x/bin" || p == "/res/seekjob-backend",
        resourceDir := .ok "/res", resourceTree := [] }
      = .ok { program := "/x/bin", args := [] }
    ∧ resolve_backend_command
      { env := fun v =>
          if v = "SEEKJOB_BACKEND_DEV_PYTHON" then some "/usr/py"
          else if v = "SEEKJOB_BACKEND_DEV_SCRIPT" then some "/src/main.py" else none,
        debugAssertions := true,
        fsExists := fun p => p == "/usr/py" || p == "/src/main.py",
        resourceDir := .error "unused", resourceTree := [] }
      = .ok { program := "/usr/py", args := ["/src/main.py"] }
    ∧ devOverrideHit
      { env := fun v =>
          if v = "SEEKJOB_BACKEND_DEV_PYTHON" then some "/usr/py"
          else if v = "SEEKJOB_BACKEND_DEV_SCRIPT" then some "/src/main.py" else none,
        debugAssertions := false,
        fsExists := fun p => p == "/usr/py" || p == "/src/main.py",
        resourceDir := .error "unused", resourceTree := [] } = none
    ∧ resolve_backend_command
      { env := fun _ => none, debugAssertions := false, fsExists := fun _ => false,
        resourceDir := .error "boom", resourceTree := [] }
      = .error ("Cannot resolve Tauri resources dir: " ++ "boom")
    ∧ resolve_backend_command
      { env := fun _ => none, debugAssertions := false,
        fsExists := fun p => p == "/res/backend/seekjob-backend",
        resourceDir := .ok "/res", resourceTree := [] }
      = .ok { program := "/res/backend/seekjob-backend", args := [] }
    ∧ resolve_backend_command
      { env := fun _ => none, debugAssertions := false, fsExists := fun _ => false,
        resourceDir := .ok "/res",
        resourceTree := [FSEntry.dir "d1" [FSEntry.file "seekjob-backend"]] }
      = .ok { program := joinComponents "/res" ["d1", "seekjob-backend"], args := [] }
    ∧ resolve_backend_command
      { env := fun _ => none, debugAssertions := false, fsExists := fun _ => false,
        resourceDir := .ok "/res", resourceTree := [] }
      = .error ("Embedded backend binary not found under " ++ "/res" ++
          ". Expected file name: " ++ BACKEND_BIN_NAME) := by
  refine ⟨?_, ?_, ?_, ?_, ?_, ?_, ?_⟩
  · exact (resolve_backend_command_priority _).1 "/x/bin" rfl (by decide)
  · exact (resolve_backend_command_priority _).2.2.1 "/usr/py" "/src/main.py"
      rfl rfl rfl rfl (by decide) (by decide)
  · exact (resolve_backend_command_priority _).2.1 rfl
  · exact (resolve_backend_command_priority _).2.2.2.1 "boom" rfl rfl rfl
  · exact (resolve_backend_command_priority _).2.2.2.2.1 "/res"
      "/res/backend/seekjob-backend" rfl rfl rfl (by decide)
  · exact (resolve_backend_command_priority _).2.2.2.2.2.1 "/res" ["d1", "seekjob-backend"]
      rfl rfl rfl (by decide) (by decide)
  · exact (resolve_backend_command_priority _).2.2.2.2.2.2 "/res"
      rfl rfl rfl (by decide) (by decide)

lemma wait_for_health_immediate (api_base : String) (max_wait : Nat) (h : 0 < max_wait) :
    wait_for_health (fun _ _ => some 200) api_base max_wait = true := by
  rw [wait_for_health_true_iff_aux]
  exact ⟨0, by omega, rfl⟩

/-- C3: when the child spawns but the health probe does not succeed within
the fixed 70-second (70000ms) ceiling, `start_backend` kills the child and
returns the readiness-timeout error instead of a ready state. -/
theorem start_backend_timeout_kills_child (c : StartCtx) (data_dir : String)
    (port : Nat) (backend : BackendCommand) (pid : Nat)
    (hdd : resolve_seekjob_data_dir c.env c.appDataDir = .ok data_dir)
    (hmk1 : c.createDirAll data_dir = .ok ())
    (hmk2 : c.createDirAll (pjoin data_dir "logs") = .ok ())
    (hport : c.reservePort = .ok port)
    (hcmd : resolve_backend_command c.resolveCtx = .ok backend)
    (hlog1 : c.openLogFile (pjoin (pjoin data_dir "logs") "backend.stdout.log") = .ok ())
    (hlog2 : c.openLogFile (pjoin (pjoin data_dir "logs") "backend.stderr.log") = .ok ())
    (hspawn : c.spawnChild = .ok pid)
    (hhealth : wait_for_health c.probe
      ("http://127.0.0.1:" ++ toString port ++ "/api") 70000 = false) :
    (start_backend c).1 =
      .error "Backend process started but /api/health did not become ready in time"
    ∧ Effect.kill pid ∈ (start_backend c).2 := by
  simp [start_backend, hdd, hmk1, hmk2, hport, hcmd, hlog1, hlog2, hspawn, hhealth]

/-- A concrete context for the readiness-timeout scenario: every setup step
succeeds, the first bundled candidate exists, the child spawns as process 7,
and every health probe is a transport error. -/
def timeoutCtx : StartCtx :=
  { env := fun _ => none, debugAssertions := false,
    fsExists := fun p => p == "/res/seekjob-backend",
    resourceDir := .ok "/res", resourceTree := [],
    appDataDir := .ok "/data",
    createDirAll := fun _ => .ok (), reservePort := .ok 1234,
    openLogFile := fun _ => .ok (), spawnChild := .ok 7,
    probe := fun _ _ => none }

/-- Witness for C3. -/
theorem start_backend_timeout_kills_child_check :
    (start_backend timeoutCtx).1 =
      .error "Backend process started but /api/health did not become ready in time"
    ∧ Effect.kill 7 ∈ (start_backend timeoutCtx).2 :=
  start_backend_timeout_kills_child timeoutCtx "/data" 1234
    { program := "/res/seekjob-backend", args := [] } 7
    rfl rfl rfl rfl rfl rfl rfl rfl
    (wait_for_health_never ("http://127.0.0.1:" ++ toString 1234 ++ "/api") 70000)

/-- C5: on the success path `start_backend` records exactly
`http://127.0.0.1:<port>/api` as the API base and passes to the child, on
top of the inherited process environment, the reserved port under the two
aliases `SEEKJOB_PORT` and `PORT`, the data directory, the connection string
`sqlite:///<data dir>/app.db`, and the legacy-database-path hint (the empty
string when none resolves); every other variable reaches the child exactly
as the parent has it. -/
theorem start_backend_child_env (c : StartCtx) (data_dir : String)
    (port : Nat) (backend : BackendCommand) (pid : Nat)
    (hdd : resolve_seekjob_data_dir c.env c.appDataDir = .ok data_dir)
    (hmk1 : c.createDirAll data_dir = .ok ())
    (hmk2 : c.createDirAll (pjoin data_dir "logs") = .ok ())
    (hport : c.reservePort = .ok port)
    (hcmd : resolve_backend_command c.resolveCtx = .ok backend)
    (hlog1 : c.openLogFile (pjoin (pjoin data_dir "logs") "backend.stdout.log") = .ok ())
    (hlog2 : c.openLogFile (pjoin (pjoin data_dir "logs") "backend.stderr.log") = .ok ())
    (hspawn : c.spawnChild = .ok pid)
    (hhealth : wait_for_health c.probe
      ("http://127.0.0.1:" ++ toString port ++ "/api") 70000 = true) :
    (start_backend c).1 =
      .ok { api_base := "http://127.0.0.1:" ++ toString port ++ "/api",
            data_dir := data_dir, logs_dir := pjoin data_dir "logs", child := some pid }
    ∧ (start_backend c).2 =
      [Effect.spawn backend.program backend.args
        (childEnvList port data_dir ("sqlite:///" ++ pjoin data_dir "app.db")
          (resolve_legacy_db_path c.env c.fsExists))
        (pjoin (pjoin data_dir "logs") "backend.stdout.log")
        (pjoin (pjoin data_dir "logs") "backend.stderr.log")]
    ∧ childEnvList port data_dir ("sqlite:///" ++ pjoin data_dir "app.db")
        (resolve_legacy_db_path c.env c.fsExists) =
      [ ("SEEKJOB_PORT", toString port), ("PORT", toString port),
        ("SEEKJOB_DATA_DIR", data_dir),
        ("DATABASE_URL", "sqlite:///" ++ pjoin data_dir "app.db"),
        ("SEEKJOB_LEGACY_DB_PATH", resolve_legacy_db_path c.env c.fsExists) ]
    ∧ (legacyHintHit c.env c.fsExists = none →
        legacyCandidates.find? c.fsExists = none →
        resolve_legacy_db_path c.env c.fsExists = "")
    ∧ (∀ parent k,
        k ≠ "SEEKJOB_PORT" ∧ k ≠ "PORT" ∧ k ≠ "SEEKJOB_DATA_DIR" ∧
          k ≠ "DATABASE_URL" ∧ k ≠ "SEEKJOB_LEGACY_DB_PATH" →
        mergedEnv parent
          (childEnvList port data_dir ("sqlite:///" ++ pjoin data_dir "app.db")
            (resolve_legacy_db_path c.env c.fsExists)) k = parent k) := by
  refine ⟨?_, ?_, rfl, ?_, ?_⟩
  · simp [start_backend, hdd, hmk1, hmk2, hport, hcmd, hlog1, hlog2, hspawn, hhealth]
  · simp [start_backend, hdd, hmk1, hmk2, hport, hcmd, hlog1, hlog2, hspawn, hhealth]
  · intro hhint hfind
    simp [resolve_legacy_db_path, hhint, hfind]
  · intro parent k hk
    obtain ⟨h1, h2, h3, h4, h5⟩ := hk
    have e1 : ("SEEKJOB_PORT" == k) = false := beq_eq_false_iff_ne.mpr (Ne.symm h1)
    have e2 : ("PORT" == k) = false := beq_eq_false_iff_ne.mpr (Ne.symm h2)
    have e3 : ("SEEKJOB_DATA_DIR" == k) = false := beq_eq_false_iff_ne.mpr (Ne.symm h3)
    have e4 : ("DATABASE_URL" == k) = false := beq_eq_false_iff_ne.mpr (Ne.symm h4)
    have e5 : ("SEEKJOB_LEGACY_DB_PATH" == k) = false := beq_eq_false_iff_ne.mpr (Ne.symm h5)
    simp [mergedEnv, childEnvList, List.find?, e1, e2, e3, e4, e5]

/-- A concrete context for the success scenario: as `timeoutCtx`, but every
health probe immediately observes status 200. -/
def readyCtx : StartCtx :=
  { env := fun _ => none, debugAssertions := false,
    fsExists := fun p => p == "/res/seekjob-backend",
    resourceDir := .ok "/res", resourceTree := [],
    appDataDir := .ok "/data",
    createDirAll := fun _ => .ok (), reservePort := .ok 1234,
    openLogFile := fun _ => .ok (), spawnChild := .ok 7,
    probe := fun _ _ => some 200 }

/-- Witness for C5. -/
theorem start_backend_child_env_check :
    (start_backend readyCtx).1 =
      .ok { api_base := "http://127.0.0.1:" ++ toString 1234 ++ "/api",
            data_dir := "/data", logs_dir := pjoin "/data" "logs", child := some 7 }
    ∧ (start_backend readyCtx).2 =
      [Effect.spawn "/res/seekjob-backend" []
        (childEnvList 1234 "/data" ("sqlite:///" ++ pjoin "/data" "app.db")
          (resolve_legacy_db_path readyCtx.env readyCtx.fsExists))
        (pjoin (pjoin "/data" "logs") "backend.stdout.log")
        (pjoin (pjoin "/data" "logs") "backend.stderr.log")]
    ∧ resolve_legacy_db_path readyCtx.env readyCtx.fsExists = ""
    ∧ mergedEnv (fun _ => some "inherited")
        (childEnvList 1234 "/data" ("sqlite:///" ++ pjoin "/data" "app.db")
          (resolve_legacy_db_path readyCtx.env readyCtx.fsExists)) "OTHER_VAR"
        = some "inherited" := by
  obtain ⟨h1, h2, h3, h4, h5⟩ :=
    start_backend_child_env readyCtx "/data" 1234
      { program := "/res/seekjob-backend", args := [] } 7
      rfl rfl rfl rfl rfl rfl rfl rfl
      (wait_for_health_immediate ("http://127.0.0.1:" ++ toString 1234 ++ "/api") 70000
        (by omega))
  exact ⟨h1, h2, h4 rfl (by decide),
    h5 (fun _ => some "inherited") "OTHER_VAR"
      ⟨by decide, by decide, by decide, by decide, by decide⟩⟩

/-- C6: a `start_backend` failure does not crash the host — the setup path
logs the error and installs a degraded state whose child handle is `none`
and whose API base is the placeholder unreachable `http://127.0.0.1:0/api`,
and `setup_state` still returns a state (the host keeps running). -/
theorem setup_keeps_running_degraded (c : StartCtx) (e : String) (effs : List Effect)
    (h : start_backend c = (.error e, effs)) :
    (setup_state c).1.child = none
    ∧ (setup_state c).1.api_base = "http://127.0.0.1:0/api"
    ∧ Effect.logError e ∈ (setup_state c).2 := by
  simp [setup_state, h]

/-- A concrete context whose startup fails at the very first step: no
override variables, no `HOME`, and a failing app-data-directory callback. -/
def failCtx : StartCtx :=
  { env := fun _ => none, debugAssertions := false, fsExists := fun _ => false,
    resourceDir := .ok "/res", resourceTree := [],
    appDataDir := .error "boom",
    createDirAll := fun _ => .ok (), reservePort := .ok 1234,
    openLogFile := fun _ => .ok (), spawnChild := .ok 7,
    probe := fun _ _ => none }

/-- Witness for C6. -/
theorem setup_keeps_running_degraded_check :
    (setup_state failCtx).1.child = none
    ∧ (setup_state failCtx).1.api_base = "http://127.0.0.1:0/api"
    ∧ Effect.logError ("Cannot resolve app data dir: " ++ "boom") ∈ (setup_state failCtx).2 :=
  setup_keeps_running_degraded failCtx ("Cannot resolve app data dir: " ++ "boom") [] rfl

end SeekJob
